import Mathlib

set_option maxRecDepth 16384

/-!
Verification development for the credential-protection subsystem of the
Alma Order Extension (files `options.js` and `background.js`).

Bytes are modelled as `Nat` values (meaningful when `< 256`), byte strings as
`List Nat`, persisted `chrome.storage.local` state as the `Storage` structure,
and the in-memory session (`CONFIG.ALMA_API_KEY` in `background.js`) as an
`Option String`.  The WebCrypto primitives (PBKDF2 key derivation, AES-GCM)
and the TextEncoder/TextDecoder pair are platform primitives, not repository
code; they are given concrete executable models that satisfy exactly the
contracts the repository relies on (determinism of the KDF; authenticated
encryption with a 16-byte tag whose decrypt inverts encrypt under the same
key/nonce; a byte-valued left-invertible string coding).  Everything else is
translated from the JavaScript source.
-/

/-! ## base64url (the source's `b64u` / `u8ToB64u` / `toB64u` and `ub64`)

`options.js` and `background.js` each define byte↔base64url helpers built on
the platform `btoa`/`atob`: encode with the standard alphabet, replace
`+ → -` and `/ → _`, and strip `=` padding; decode by undoing the
replacement, re-padding, and calling `atob`.  The definitions below are the
composites of those steps, working directly with the url-safe alphabet and
unpadded strings. -/

/-- The url-safe base64 alphabet (standard alphabet after the source's
`+ → -`, `/ → _` replacement): index 0..63 to character. -/
def b64CharOfNat (n : Nat) : Char :=
  if n < 26 then Char.ofNat (65 + n)
  else if n < 52 then Char.ofNat (97 + (n - 26))
  else if n < 62 then Char.ofNat (48 + (n - 52))
  else if n = 62 then '-'
  else '_'

/-- Inverse of the url-safe alphabet: character to index 0..63 (as `atob`
does after the source maps `- → +`, `_ → /`). -/
def natOfB64Char (c : Char) : Nat :=
  if 65 ≤ c.toNat ∧ c.toNat ≤ 90 then c.toNat - 65
  else if 97 ≤ c.toNat ∧ c.toNat ≤ 122 then c.toNat - 97 + 26
  else if 48 ≤ c.toNat ∧ c.toNat ≤ 57 then c.toNat - 48 + 52
  else if c = '-' then 62
  else 63

/-- Byte triples to character quadruples, with the 1- and 2-byte tails that
`btoa` would pad (padding already stripped, as the source's regex does). -/
def b64uChunks : List Nat → List Char
  | a :: b :: c :: rest =>
      b64CharOfNat (a / 4) :: b64CharOfNat (a % 4 * 16 + b / 16) ::
        b64CharOfNat (b % 16 * 4 + c / 64) :: b64CharOfNat (c % 64) :: b64uChunks rest
  | [a, b] => [b64CharOfNat (a / 4), b64CharOfNat (a % 4 * 16 + b / 16), b64CharOfNat (b % 16 * 4)]
  | [a] => [b64CharOfNat (a / 4), b64CharOfNat (a % 4 * 16)]
  | [] => []

/-- Character quadruples back to byte triples, with the 2- and 3-character
tails that the source's `ub64` re-pads before calling `atob`.  A leftover
single character would make `atob` reject the input; it decodes to no
bytes here (that shape is never produced by `b64uChunks`). -/
def ub64Chunks : List Char → List Nat
  | c0 :: c1 :: c2 :: c3 :: rest =>
      (natOfB64Char c0 * 4 + natOfB64Char c1 / 16) ::
        (natOfB64Char c1 % 16 * 16 + natOfB64Char c2 / 4) ::
        (natOfB64Char c2 % 4 * 64 + natOfB64Char c3) :: ub64Chunks rest
  | [c0, c1, c2] =>
      [natOfB64Char c0 * 4 + natOfB64Char c1 / 16,
        natOfB64Char c1 % 16 * 16 + natOfB64Char c2 / 4]
  | [c0, c1] => [natOfB64Char c0 * 4 + natOfB64Char c1 / 16]
  | [_] => []
  | [] => []

/-- base64url-encode a byte list (the source's `b64u`, `u8ToB64u`, `toB64u`:
`btoa` on the binary string, then `+/ → -_` and `=` stripping). -/
def b64u (bs : List Nat) : String :=
  ⟨b64uChunks bs⟩

/-- base64url-decode to a byte list (the source's `ub64`: `-_ → +/`, re-pad
with `=`, `atob`, then char codes). -/
def ub64 (s : String) : List Nat :=
  ub64Chunks s.data

/-! ## String ↔ bytes (model of `TextEncoder`/`TextDecoder`)

The source moves strings to bytes with `new TextEncoder().encode(...)` and
back with `new TextDecoder().decode(...)` (UTF-8).  The development relies
only on this being a byte-valued (each byte `< 256`) left-invertible coding,
so it is modelled as a fixed-width three-bytes-per-character coding. -/

/-- One character to three little-endian bytes (code points fit in 24 bits). -/
def charBytes (c : Char) : List Nat :=
  [c.toNat % 256, c.toNat / 256 % 256, c.toNat / 65536 % 256]

/-- Character list to bytes. -/
def bytesOfChars : List Char → List Nat
  | [] => []
  | c :: cs => charBytes c ++ bytesOfChars cs

/-- Model of `TextEncoder.encode`. -/
def strToBytes (s : String) : List Nat :=
  bytesOfChars s.data

/-- Bytes back to characters, three at a time (trailing partial chunks,
which the coding never produces, decode to nothing). -/
def charsOfBytes : List Nat → List Char
  | b0 :: b1 :: b2 :: rest => Char.ofNat (b0 + b1 * 256 + b2 * 65536) :: charsOfBytes rest
  | _ => []

/-- Model of `TextDecoder.decode`. -/
def bytesToStr (bs : List Nat) : String :=
  ⟨charsOfBytes bs⟩

/-! ## WebCrypto models: PBKDF2 key derivation and AES-GCM

`deriveAesKey` models the source's
`crypto.subtle.deriveKey({name:"PBKDF2", salt, iterations, hash:"SHA-256"},
importKey("raw", encode(password)), {name:"AES-GCM", length:256}, ...)`
followed by `exportKey("raw")`: a deterministic function of
(password, salt, iterations) producing 32 bytes.  `aesGcmEncrypt` /
`aesGcmDecrypt` model AES-256-GCM: ciphertext = keystream-masked body plus a
16-byte tag over key, iv and body; decrypt rejects a short ciphertext, a
non-32-byte key, or a tag mismatch, and otherwise inverts the masking.  Only
these interface facts are relied on, mirroring the AES-GCM contract. -/

/-- A mixing step used by the stand-in hash inside the crypto models. -/
def mix (a b : Nat) : Nat :=
  (a * 131 + b + 17) % 4294967296

/-- Model of the PBKDF2-SHA256 → AES-GCM-256 derivation plus raw export:
deterministic, 32 output bytes. -/
def deriveAesKey (password : String) (salt : List Nat) (iters : Nat) : List Nat :=
  let seed := (password.data.map Char.toNat ++ salt ++ [iters]).foldl mix 7
  (List.range 32).map fun i => (seed * (i + 3) + i * i) % 256

/-- One keystream byte for position `i` under (key, iv). -/
def ksByte (key iv : List Nat) (i : Nat) : Nat :=
  (key ++ iv).foldl mix (i + 11) % 256

/-- The 16-byte authentication tag over key, iv and ciphertext body. -/
def gcmTag (key iv body : List Nat) : List Nat :=
  let seed := (key ++ iv ++ body).foldl mix 29
  (List.range 16).map fun i => (seed * (i + 5) + i * 7) % 256

/-- Mask plaintext bytes with the keystream, starting at position `i`. -/
def gcmMask (key iv : List Nat) : Nat → List Nat → List Nat
  | _, [] => []
  | i, b :: bs => (b + ksByte key iv i) % 256 :: gcmMask key iv (i + 1) bs

/-- Unmask ciphertext-body bytes, starting at position `i`. -/
def gcmUnmask (key iv : List Nat) : Nat → List Nat → List Nat
  | _, [] => []
  | i, b :: bs => (b + 256 - ksByte key iv i) % 256 :: gcmUnmask key iv (i + 1) bs

/-- Model of `crypto.subtle.encrypt({name:"AES-GCM", iv}, key, pt)`:
keystream-masked body followed by the 16-byte tag. -/
def aesGcmEncrypt (key iv pt : List Nat) : List Nat :=
  let body := gcmMask key iv 0 pt
  body ++ gcmTag key iv body

/-- Model of `crypto.subtle.importKey("raw", ...)` plus
`crypto.subtle.decrypt({name:"AES-GCM", iv}, key, ct)`: `none` is the
thrown `OperationError` (bad key size, short input, or tag mismatch). -/
def aesGcmDecrypt (key iv ct : List Nat) : Option (List Nat) :=
  if key.length ≠ 32 then none
  else if ct.length < 16 then none
  else
    let body := ct.take (ct.length - 16)
    let tag := ct.drop (ct.length - 16)
    if tag = gcmTag key iv body then some (gcmUnmask key iv 0 body) else none

/-- Model of the JS `String.prototype.trim` used on every text input:
strip leading and trailing whitespace. -/
def jsTrim (s : String) : String :=
  ⟨((s.data.dropWhile Char.isWhitespace).reverse.dropWhile Char.isWhitespace).reverse⟩

/-! ## Persistent storage and JS truthiness

The credential subsystem reads and writes these `chrome.storage.local` keys
(`options.js` and `background.js`).  A key that was never set reads back as
`undefined`, modelled by `none`.  JS truthiness (`!!x`, `if (x)`, `x || d`)
is false for `undefined`, the empty string and the number `0`. -/

structure Storage where
  ALMA_PW_SALT : Option String := none
  ALMA_KDF_ITERS : Option Nat := none
  ALMA_KEK_B64 : Option String := none
  ALMA_API_KEY_C : Option String := none
  ALMA_API_KEY_IV : Option String := none
  ALMA_API_KEY_LEN : Option Nat := none
  ALMA_REGION : Option String := none
  ALMA_API_KEY : Option String := none
  deriving DecidableEq, Repr

/-- JS truthiness of a possibly-undefined string value. -/
def truthyS : Option String → Bool
  | none => false
  | some s => !(s == "")

/-- JS truthiness of a possibly-undefined number value. -/
def truthyN : Option Nat → Bool
  | none => false
  | some n => !(n == 0)

/-- The source's `Number(ALMA_KDF_ITERS || 200000)`: the stored iteration
count when truthy, else the 200000 default. -/
def itersOrDefault : Option Nat → Nat
  | none => 200000
  | some n => if n == 0 then 200000 else n

/-- The source's `String(s || "")` guard applied before `ub64` in
`background.js`: an undefined storage value reads as the empty string. -/
def strOrEmpty : Option String → String
  | none => ""
  | some s => s

/-- A handler's `sendResponse` payload (or an options-page status line):
`{ok:true}` or `{ok:false, error}`. -/
inductive Resp where
  | success : Resp
  | failure (error : String) : Resp
  deriving DecidableEq, Repr

/-! ## The handlers

Each handler is a pure function of its inputs, the storage and the session,
returning its response together with the updated storage and/or session.
Fresh randomness (`crypto.getRandomValues` for the salt and the iv) is an
explicit argument.  The options-page DOM lock state (`settingsCard` carrying
class `disabled`) is the explicit `locked` argument, and the text inputs are
passed as strings. -/

/-- Outcome of an options-page handler: status plus the storage it leaves. -/
structure OptOut where
  resp : Resp
  st : Storage
  deriving DecidableEq, Repr

/-- Outcome of the background `UNLOCK_ALMA_KEY` handler: response plus the
in-memory session (`CONFIG.ALMA_API_KEY`) it leaves. -/
structure UnlockOut where
  resp : Resp
  sess : Option String
  deriving DecidableEq, Repr

/-- `options.js` `setPassword` click handler (first-time password setup):
trim and require a password, refuse when a complete record (verifier, salt
and iterations all truthy) exists, else generate `salt`, fix 200000
iterations, derive the KEK and persist salt, iterations and raw-KEK
verifier together. -/
def setPasswordClick (st : Storage) (passwordInput : String) (salt : List Nat) : OptOut :=
  let password := jsTrim passwordInput
  if password == "" then ⟨.failure "Enter a password to set.", st⟩
  else
    let hvK := truthyS st.ALMA_KEK_B64
    let hvS := truthyS st.ALMA_PW_SALT
    let hvI := truthyN st.ALMA_KDF_ITERS
    if hvK && hvS && hvI then
      ⟨.failure "Password already set. Use Unlock to edit.", st⟩
    else
      let iters := 200000
      let raw := deriveAesKey password salt iters
      ⟨.success,
        { st with
          ALMA_PW_SALT := some (b64u salt)
          ALMA_KDF_ITERS := some iters
          ALMA_KEK_B64 := some (b64u raw) }⟩

/-- `options.js` `save` click handler: refuse when the page is locked; an
input that trims to empty saves only the region; otherwise require a
password and a complete password record, re-derive the KEK from the stored
salt/iterations, compare its encoding with the stored verifier, and on match
encrypt the trimmed key under a fresh `iv` and persist ciphertext, iv,
plaintext length and region together. -/
def saveClick (st : Storage) (locked : Bool) (apiKeyInput regionInput passwordInput : String)
    (iv : List Nat) : OptOut :=
  if locked then ⟨.failure "Unlock first.", st⟩
  else
    let apiKey := jsTrim apiKeyInput
    let region := if regionInput == "" then "NA" else regionInput
    if apiKey == "" then ⟨.success, { st with ALMA_REGION := some region }⟩
    else
      let pw := jsTrim passwordInput
      if pw == "" then ⟨.failure "Enter password in Admin unlock to encrypt.", st⟩
      else if !(truthyS st.ALMA_PW_SALT && truthyN st.ALMA_KDF_ITERS
          && truthyS st.ALMA_KEK_B64) then
        ⟨.failure "Set password first (Admin unlock → Set Password).", st⟩
      else
        let salt := ub64 (strOrEmpty st.ALMA_PW_SALT)
        let iters := itersOrDefault st.ALMA_KDF_ITERS
        let raw := deriveAesKey pw salt iters
        if st.ALMA_KEK_B64 ≠ some (b64u raw) then
          ⟨.failure "Wrong password for encryption.", st⟩
        else
          let ct := aesGcmEncrypt raw iv (strToBytes apiKey)
          ⟨.success,
            { st with
              ALMA_API_KEY_C := some (b64u ct)
              ALMA_API_KEY_IV := some (b64u iv)
              ALMA_API_KEY_LEN := some apiKey.length
              ALMA_REGION := some region }⟩

/-- `options.js` `clear` click handler: refuse when the page is locked, else
`store.remove` of `ALMA_API_KEY`, `ALMA_API_KEY_C`, `ALMA_API_KEY_IV`,
`ALMA_KDF_ITERS`, `ALMA_PW_SALT` and `ALMA_KEK_B64` (note: the source's
remove list does not include `ALMA_API_KEY_LEN` or `ALMA_REGION`). -/
def clearClick (st : Storage) (locked : Bool) : OptOut :=
  if locked then ⟨.failure "Unlock first.", st⟩
  else
    ⟨.success,
      { st with
        ALMA_API_KEY := none
        ALMA_API_KEY_C := none
        ALMA_API_KEY_IV := none
        ALMA_KDF_ITERS := none
        ALMA_PW_SALT := none
        ALMA_KEK_B64 := none }⟩

/-- `background.js` `UNLOCK_ALMA_KEY` handler: report no-password-set when
verifier, salt and iterations are all absent, incomplete setup when a
verifier is present but salt or iterations is missing; otherwise re-derive
the key from the password and compare its encoding with the stored verifier
(`"Wrong password."` on mismatch); on match decrypt the stored credential
into the session when ciphertext and iv are both present (a decrypt throw
is caught as `"Unlock failed."`), and report success either way. -/
def unlockAlmaKey (st : Storage) (sess : Option String) (password : String) : UnlockOut :=
  let hasK := truthyS st.ALMA_KEK_B64
  let hasS := truthyS st.ALMA_PW_SALT
  let hasI := truthyN st.ALMA_KDF_ITERS
  if !hasK && !hasS && !hasI then
    ⟨.failure "No password set. Click Set Password first.", sess⟩
  else if hasK && (!hasS || !hasI) then
    ⟨.failure "Password setting incomplete. Click Set Password to repair.", sess⟩
  else
    let salt := ub64 (strOrEmpty st.ALMA_PW_SALT)
    let iters := itersOrDefault st.ALMA_KDF_ITERS
    let raw := deriveAesKey password salt iters
    if st.ALMA_KEK_B64 ≠ some (b64u raw) then ⟨.failure "Wrong password.", sess⟩
    else if truthyS st.ALMA_API_KEY_C && truthyS st.ALMA_API_KEY_IV then
      let iv := ub64 (strOrEmpty st.ALMA_API_KEY_IV)
      let ct := ub64 (strOrEmpty st.ALMA_API_KEY_C)
      match aesGcmDecrypt raw iv ct with
      | some pt => ⟨.success, some (bytesToStr pt)⟩
      | none => ⟨.failure "Unlock failed.", sess⟩
    else ⟨.success, sess⟩

/-- `options.js` `unlock` click handler: trim the password input, require it
nonempty, and send `UNLOCK_ALMA_KEY` to the background handler. -/
def unlockClick (st : Storage) (sess : Option String) (passwordInput : String) : UnlockOut :=
  let password := jsTrim passwordInput
  if password == "" then ⟨.failure "Enter a password.", sess⟩
  else unlockAlmaKey st sess password

/-- `background.js` `tryAutoUnlockFromKEK`: return `false` leaving the
session alone when ciphertext, iv or stored KEK is missing; otherwise
decrypt the ciphertext directly under the decoded stored KEK bytes — no
password involved — storing the plaintext in the session on success; on a
decrypt throw the catch branch nulls the session ("keep state honest") and
returns `false`. -/
def tryAutoUnlockFromKEK (st : Storage) (sess : Option String) : Bool × Option String :=
  if !(truthyS st.ALMA_API_KEY_C && truthyS st.ALMA_API_KEY_IV
      && truthyS st.ALMA_KEK_B64) then
    (false, sess)
  else
    let kekRaw := ub64 (strOrEmpty st.ALMA_KEK_B64)
    let iv := ub64 (strOrEmpty st.ALMA_API_KEY_IV)
    let ct := ub64 (strOrEmpty st.ALMA_API_KEY_C)
    match aesGcmDecrypt kekRaw iv ct with
    | some pt => (true, some (bytesToStr pt))
    | none => (false, none)

/-- `background.js` `getUsableKey`: the in-memory key when truthy, else one
auto-unlock attempt, returning the now-in-memory key on success and `null`
on failure (second component: the session the call leaves behind). -/
def getUsableKey (st : Storage) (sess : Option String) : Option String × Option String :=
  if truthyS sess then (sess, sess)
  else
    let r := tryAutoUnlockFromKEK st sess
    (if r.fst then r.snd else none, r.snd)

/-- `background.js` `LOCK_ALMA_KEY` handler: purge the in-memory key. -/
def lockAlmaKey (_sess : Option String) : Resp × Option String :=
  (.success, none)

/-! ## Concrete inputs for the closed instantiations below -/

/-- A concrete 16-byte salt (standing in for `crypto.getRandomValues`). -/
def exSalt : List Nat :=
  [1, 2, 3, 4, 5, 6, 7, 8, 9, 10, 11, 12, 13, 14, 15, 16]

/-- A concrete 12-byte AES-GCM iv. -/
def exIV : List Nat :=
  [21, 22, 23, 24, 25, 26, 27, 28, 29, 30, 31, 32]

/-- Fresh storage: no key has ever been set. -/
def emptyStorage : Storage :=
  {}

/-- Storage after first-time password setup with password `"Sesame1"`. -/
def exSetupStorage : Storage :=
  (setPasswordClick emptyStorage "Sesame1" exSalt).st

/-- Storage after additionally saving the credential `"sk-test-12345"`. -/
def exSavedStorage : Storage :=
  (saveClick exSetupStorage false "sk-test-12345" "NA" "Sesame1" exIV).st

/-- Storage after instead saving the credential `"a "` (trailing space). -/
def exPaddedSavedStorage : Storage :=
  (saveClick exSetupStorage false "a " "NA" "Sesame1" exIV).st

/-- A manually fabricated storage holding only the password salt. -/
def saltOnlyStorage : Storage :=
  { ALMA_PW_SALT := some (b64u exSalt) }

/-- A manually fabricated storage holding only an iteration count. -/
def itersOnlyStorage : Storage :=
  { ALMA_KDF_ITERS := some 200000 }

/-- A manually fabricated storage whose ciphertext is a single byte, too
short to carry an AES-GCM tag, so every decryption of it fails. -/
def corruptCipherStorage : Storage :=
  { ALMA_API_KEY_C := some (b64u [0])
    ALMA_API_KEY_IV := some (b64u exIV)
    ALMA_KEK_B64 := some (b64u (deriveAesKey "p" exSalt 200000)) }

/-! ## Properties of the codec and crypto models -/

theorem natOfB64Char_b64CharOfNat : ∀ n, n < 64 → natOfB64Char (b64CharOfNat n) = n := by
  decide

theorem ub64Chunks_b64uChunks (bs : List Nat) (h : ∀ b ∈ bs, b < 256) :
    ub64Chunks (b64uChunks bs) = bs := by
  induction bs using b64uChunks.induct with
  | case1 a b c rest ih =>
    have ha : a < 256 := h a (by simp)
    have hb : b < 256 := h b (by simp)
    have hc : c < 256 := h c (by simp)
    rw [b64uChunks, ub64Chunks]
    rw [natOfB64Char_b64CharOfNat _ (by omega), natOfB64Char_b64CharOfNat _ (by omega),
      natOfB64Char_b64CharOfNat _ (by omega), natOfB64Char_b64CharOfNat _ (by omega)]
    rw [ih (fun x hx => h x (by simp [hx]))]
    refine congrArg₂ _ (by omega) (congrArg₂ _ (by omega) (congrArg₂ _ (by omega) rfl))
  | case2 a b =>
    have ha : a < 256 := h a (by simp)
    have hb : b < 256 := h b (by simp)
    rw [b64uChunks, ub64Chunks]
    rw [natOfB64Char_b64CharOfNat _ (by omega), natOfB64Char_b64CharOfNat _ (by omega),
      natOfB64Char_b64CharOfNat _ (by omega)]
    refine congrArg₂ _ (by omega) (congrArg₂ _ (by omega) rfl)
  | case3 a =>
    have ha : a < 256 := h a (by simp)
    rw [b64uChunks, ub64Chunks]
    rw [natOfB64Char_b64CharOfNat _ (by omega), natOfB64Char_b64CharOfNat _ (by omega)]
    refine congrArg₂ _ (by omega) rfl
  | case4 =>
    rfl

/-- Decoding inverts encoding on genuine byte lists. -/
theorem ub64_b64u (bs : List Nat) (h : ∀ b ∈ bs, b < 256) : ub64 (b64u bs) = bs :=
  ub64Chunks_b64uChunks bs h

/-- `b64u` is injective on genuine byte lists (string comparison of encodings,
as the source's verifier check performs, decides byte-list equality). -/
theorem b64u_injective (xs ys : List Nat) (hx : ∀ b ∈ xs, b < 256)
    (hy : ∀ b ∈ ys, b < 256) (h : b64u xs = b64u ys) : xs = ys := by
  have := congrArg ub64 h
  rwa [ub64_b64u xs hx, ub64_b64u ys hy] at this

/-- A nonempty byte list encodes to a nonempty (JS-truthy) string. -/
theorem b64u_ne_empty (bs : List Nat) (h : bs ≠ []) : b64u bs ≠ "" := by
  match bs, h with
  | a :: b :: c :: rest, _ => simp [b64u, b64uChunks, String.ext_iff]
  | [a, b], _ => simp [b64u, b64uChunks, String.ext_iff]
  | [a], _ => simp [b64u, b64uChunks, String.ext_iff]

/-- Every character's code point is below `0x110000`. -/
theorem char_toNat_lt (c : Char) : c.toNat < 1114112 := by
  have h := c.valid
  rcases h with h | ⟨_, h⟩ <;> simp only [Char.toNat] <;> omega

theorem charBytes_lt (c : Char) : ∀ b ∈ charBytes c, b < 256 := by
  simp only [charBytes, List.mem_cons, List.not_mem_nil, or_false]
  rintro b (rfl | rfl | rfl) <;> omega

theorem bytesOfChars_lt (cs : List Char) : ∀ b ∈ bytesOfChars cs, b < 256 := by
  induction cs with
  | nil => simp [bytesOfChars]
  | cons c cs ih =>
    intro b hb
    rcases List.mem_append.1 hb with hb | hb
    · exact charBytes_lt c b hb
    · exact ih b hb

theorem strToBytes_lt (s : String) : ∀ b ∈ strToBytes s, b < 256 :=
  bytesOfChars_lt s.data

theorem charsOfBytes_bytesOfChars (cs : List Char) : charsOfBytes (bytesOfChars cs) = cs := by
  induction cs with
  | nil => rfl
  | cons c cs ih =>
    have hc := char_toNat_lt c
    show charsOfBytes (charBytes c ++ bytesOfChars cs) = c :: cs
    rw [charBytes, List.cons_append, List.cons_append, List.cons_append, List.nil_append,
      charsOfBytes, ih]
    have : c.toNat % 256 + c.toNat / 256 % 256 * 256 + c.toNat / 65536 % 256 * 65536 = c.toNat := by
      omega
    rw [this, Char.ofNat_toNat]

/-- Decoding inverts encoding: the `TextDecoder` of a `TextEncoder` output is
the original string. -/
theorem bytesToStr_strToBytes (s : String) : bytesToStr (strToBytes s) = s := by
  cases s with
  | mk data => show (⟨charsOfBytes (bytesOfChars data)⟩ : String) = ⟨data⟩
               rw [charsOfBytes_bytesOfChars]

theorem deriveAesKey_length (p : String) (salt : List Nat) (iters : Nat) :
    (deriveAesKey p salt iters).length = 32 := by
  simp [deriveAesKey]

theorem deriveAesKey_lt (p : String) (salt : List Nat) (iters : Nat) :
    ∀ b ∈ deriveAesKey p salt iters, b < 256 := by
  intro b hb
  simp only [deriveAesKey, List.mem_map] at hb
  obtain ⟨i, _, rfl⟩ := hb
  exact Nat.mod_lt _ (by omega)

theorem deriveAesKey_ne_nil (p : String) (salt : List Nat) (iters : Nat) :
    deriveAesKey p salt iters ≠ [] := by
  intro h
  have := deriveAesKey_length p salt iters
  rw [h] at this
  simp at this

theorem gcmTag_length (key iv body : List Nat) : (gcmTag key iv body).length = 16 := by
  simp [gcmTag]

theorem gcmTag_lt (key iv body : List Nat) : ∀ b ∈ gcmTag key iv body, b < 256 := by
  intro b hb
  simp only [gcmTag, List.mem_map] at hb
  obtain ⟨i, _, rfl⟩ := hb
  exact Nat.mod_lt _ (by omega)

theorem gcmMask_length (key iv : List Nat) (i : Nat) (bs : List Nat) :
    (gcmMask key iv i bs).length = bs.length := by
  induction bs generalizing i with
  | nil => rfl
  | cons b bs ih => simp [gcmMask, ih]

theorem gcmMask_lt (key iv : List Nat) (i : Nat) (bs : List Nat) :
    ∀ b ∈ gcmMask key iv i bs, b < 256 := by
  induction bs generalizing i with
  | nil => simp [gcmMask]
  | cons b bs ih =>
    intro x hx
    rcases List.mem_cons.1 hx with rfl | hx
    · exact Nat.mod_lt _ (by omega)
    · exact ih (i + 1) x hx

theorem gcmUnmask_gcmMask (key iv : List Nat) (i : Nat) (bs : List Nat)
    (h : ∀ b ∈ bs, b < 256) : gcmUnmask key iv i (gcmMask key iv i bs) = bs := by
  induction bs generalizing i with
  | nil => rfl
  | cons b bs ih =>
    have hb : b < 256 := h b (by simp)
    have hk : ksByte key iv i < 256 := Nat.mod_lt _ (by omega)
    rw [gcmMask, gcmUnmask, ih (i + 1) (fun x hx => h x (by simp [hx]))]
    refine congrArg₂ _ ?_ rfl
    omega

theorem aesGcmEncrypt_lt (key iv pt : List Nat) : ∀ b ∈ aesGcmEncrypt key iv pt, b < 256 := by
  intro b hb
  rcases List.mem_append.1 hb with hb | hb
  · exact gcmMask_lt key iv 0 pt b hb
  · exact gcmTag_lt key iv _ b hb

theorem aesGcmEncrypt_ne_nil (key iv pt : List Nat) : aesGcmEncrypt key iv pt ≠ [] := by
  intro h
  have : (aesGcmEncrypt key iv pt).length = pt.length + 16 := by
    simp [aesGcmEncrypt, gcmMask_length, gcmTag_length]
  rw [h] at this
  simp at this

/-- AES-GCM round trip: decrypting an encryption under the same 32-byte key
and iv returns the plaintext. -/
theorem aesGcmDecrypt_aesGcmEncrypt (key iv pt : List Nat) (hkey : key.length = 32)
    (hpt : ∀ b ∈ pt, b < 256) : aesGcmDecrypt key iv (aesGcmEncrypt key iv pt) = some pt := by
  have hlen : (aesGcmEncrypt key iv pt).length = pt.length + 16 := by
    simp [aesGcmEncrypt, gcmMask_length, gcmTag_length]
  have hbody : (aesGcmEncrypt key iv pt).length - 16 = (gcmMask key iv 0 pt).length := by
    rw [hlen, gcmMask_length]
    omega
  rw [aesGcmDecrypt, if_neg (by omega), if_neg (by omega)]
  show (if _ = _ then _ else _) = _
  rw [hbody, aesGcmEncrypt, List.take_left, List.drop_left, if_pos rfl,
    gcmUnmask_gcmMask key iv 0 pt hpt]

/-! ## Truthiness and handler lemmas -/

theorem truthyS_some (s : String) (h : s ≠ "") : truthyS (some s) = true := by
  simp [truthyS, h]

theorem truthyN_some (n : Nat) (h : n ≠ 0) : truthyN (some n) = true := by
  simp [truthyN, h]

theorem itersOrDefault_some (n : Nat) (h : n ≠ 0) : itersOrDefault (some n) = n := by
  simp [itersOrDefault, h]

/-- A successful first-time setup means the trimmed password was nonempty and
the complete record (fresh salt, 200000 iterations, raw-KEK verifier) was
written over the incoming storage. -/
theorem setPasswordClick_success (st : Storage) (P : String) (salt : List Nat)
    (h : (setPasswordClick st P salt).resp = .success) :
    jsTrim P ≠ "" ∧
      (setPasswordClick st P salt).st =
        { st with
          ALMA_PW_SALT := some (b64u salt)
          ALMA_KDF_ITERS := some 200000
          ALMA_KEK_B64 := some (b64u (deriveAesKey (jsTrim P) salt 200000)) } := by
  by_cases hP : jsTrim P = ""
  · simp [setPasswordClick, hP] at h
  · constructor
    · exact hP
    · simp only [setPasswordClick] at h ⊢
      rw [if_neg (by simpa using hP)] at h ⊢
      by_cases hc : (truthyS st.ALMA_KEK_B64 && truthyS st.ALMA_PW_SALT
          && truthyN st.ALMA_KDF_ITERS) = true
      · rw [if_pos hc] at h
        simp at h
      · rw [if_neg hc] at h ⊢

/-- On a storage carrying the complete record of a setup with (trimmed)
password `jsTrim P` and salt `salt`, saving a nonempty already-trimmed key
with the same password re-derives the same KEK, passes the verifier check and
persists ciphertext, iv, length and region. -/
theorem saveClick_encrypts (st : Storage) (T regionInput P : String) (salt iv : List Nat)
    (hT : jsTrim T = T) (hTne : T ≠ "")
    (hsalt : ∀ b ∈ salt, b < 256) (hsne : salt ≠ [])
    (hS : st.ALMA_PW_SALT = some (b64u salt))
    (hI : st.ALMA_KDF_ITERS = some 200000)
    (hK : st.ALMA_KEK_B64 = some (b64u (deriveAesKey (jsTrim P) salt 200000)))
    (hP : jsTrim P ≠ "") :
    saveClick st false T regionInput P iv =
      ⟨.success,
        { st with
          ALMA_API_KEY_C :=
            some (b64u (aesGcmEncrypt (deriveAesKey (jsTrim P) salt 200000) iv (strToBytes T)))
          ALMA_API_KEY_IV := some (b64u iv)
          ALMA_API_KEY_LEN := some T.length
          ALMA_REGION := some (if regionInput == "" then "NA" else regionInput) }⟩ := by
  simp only [saveClick, if_neg (by simp : ¬(false = true))]
  rw [hT, if_neg (by simpa using hTne), if_neg (by simpa using hP)]
  rw [hS, hI, hK, truthyS_some _ (b64u_ne_empty salt hsne), truthyN_some 200000 (by omega),
    truthyS_some _ (b64u_ne_empty _ (deriveAesKey_ne_nil _ _ _))]
  simp only [Bool.and_self, Bool.not_true, if_neg (by simp : ¬(false = true))]
  rw [strOrEmpty, ub64_b64u salt hsalt, itersOrDefault_some 200000 (by omega)]
  rw [if_neg (by simp)]

/-- On a storage carrying a complete record for (trimmed) password `pw` and a
credential encrypted under the matching derived key, `UNLOCK_ALMA_KEY` with
`pw` verifies, decrypts, and stores the plaintext in the session. -/
theorem unlockAlmaKey_decrypts (st : Storage) (sess : Option String) (pw T : String)
    (salt iv : List Nat) (iters : Nat)
    (hsalt : ∀ b ∈ salt, b < 256) (hsne : salt ≠ []) (hiters : iters ≠ 0)
    (hiv : ∀ b ∈ iv, b < 256)
    (hS : st.ALMA_PW_SALT = some (b64u salt))
    (hI : st.ALMA_KDF_ITERS = some iters)
    (hK : st.ALMA_KEK_B64 = some (b64u (deriveAesKey pw salt iters)))
    (hC : st.ALMA_API_KEY_C =
      some (b64u (aesGcmEncrypt (deriveAesKey pw salt iters) iv (strToBytes T))))
    (hIV : st.ALMA_API_KEY_IV = some (b64u iv)) (hivne : iv ≠ []) :
    unlockAlmaKey st sess pw = ⟨.success, some T⟩ := by
  simp only [unlockAlmaKey]
  rw [hS, hI, hK, hC, hIV]
  rw [truthyS_some _ (b64u_ne_empty salt hsne), truthyN_some iters hiters,
    truthyS_some _ (b64u_ne_empty _ (deriveAesKey_ne_nil _ _ _)),
    truthyS_some _ (b64u_ne_empty _ (aesGcmEncrypt_ne_nil _ _ _)),
    truthyS_some _ (b64u_ne_empty iv hivne)]
  simp only [Bool.not_true, Bool.and_self, Bool.false_and, Bool.and_false, Bool.or_self,
    if_neg (by simp : ¬(false = true))]
  rw [strOrEmpty, ub64_b64u salt hsalt, itersOrDefault_some iters hiters]
  rw [if_neg (by simp), strOrEmpty, strOrEmpty, ub64_b64u iv hiv,
    ub64_b64u _ (aesGcmEncrypt_lt _ _ _)]
  rw [aesGcmDecrypt_aesGcmEncrypt _ _ _ (deriveAesKey_length _ _ _) (strToBytes_lt T)]
  simp [bytesToStr_strToBytes]

/-- On a storage whose stored KEK bytes decrypt the stored credential,
`tryAutoUnlockFromKEK` succeeds with no password and fills the session. -/
theorem tryAutoUnlockFromKEK_decrypts (st : Storage) (sess : Option String) (T : String)
    (key iv : List Nat)
    (hkey32 : key.length = 32) (hkeylt : ∀ b ∈ key, b < 256) (hkeyne : key ≠ [])
    (hiv : ∀ b ∈ iv, b < 256) (hivne : iv ≠ [])
    (hK : st.ALMA_KEK_B64 = some (b64u key))
    (hC : st.ALMA_API_KEY_C = some (b64u (aesGcmEncrypt key iv (strToBytes T))))
    (hIV : st.ALMA_API_KEY_IV = some (b64u iv)) :
    tryAutoUnlockFromKEK st sess = (true, some T) := by
  simp only [tryAutoUnlockFromKEK]
  rw [hK, hC, hIV]
  rw [truthyS_some _ (b64u_ne_empty _ (aesGcmEncrypt_ne_nil _ _ _)),
    truthyS_some _ (b64u_ne_empty iv hivne), truthyS_some _ (b64u_ne_empty key hkeyne)]
  simp only [Bool.and_self, Bool.not_true, if_neg (by simp : ¬(false = true))]
  rw [strOrEmpty, strOrEmpty, strOrEmpty, ub64_b64u key hkeylt, ub64_b64u iv hiv,
    ub64_b64u _ (aesGcmEncrypt_lt _ _ _)]
  rw [aesGcmDecrypt_aesGcmEncrypt _ _ _ hkey32 (strToBytes_lt T)]
  simp [bytesToStr_strToBytes]

/-! ## The claims -/

/-- C1 counterexample: the round trip is not byte-for-byte for every
plaintext.  With plaintext `"a "` (trailing space), setup and save succeed,
but after locking, unlocking with the password leaves the session holding
the trimmed `"a"`, not `"a "`: the save handler trims the input before
encrypting. -/
theorem c1_counterexample :
    (setPasswordClick emptyStorage "Sesame1" exSalt).resp = .success ∧
    (saveClick exSetupStorage false "a " "NA" "Sesame1" exIV).resp = .success ∧
    unlockClick exPaddedSavedStorage (lockAlmaKey (some "a ")).snd "Sesame1" =
      ⟨.success, some "a"⟩ ∧
    some "a" ≠ some "a " := by
  refine ⟨by decide, by decide, by decide, by decide⟩

/-- C1 (amended): for every password accepted by a successful first-time
setup and every nonempty plaintext with no leading or trailing whitespace,
saving the credential with that password, then locking and unlocking with
the same password, leaves the in-memory session holding exactly the
plaintext, byte for byte: the AES-GCM decrypt of the stored
ciphertext/nonce under the PBKDF2-derived KEK returns the saved
plaintext. -/
theorem c1_roundtrip_trimmed (st0 : Storage) (P T regionInput : String)
    (s : Option String) (salt iv : List Nat)
    (hT : jsTrim T = T) (hTne : T ≠ "")
    (hsalt : ∀ b ∈ salt, b < 256) (hsne : salt ≠ [])
    (hiv : ∀ b ∈ iv, b < 256) (hivne : iv ≠ [])
    (hsetup : (setPasswordClick st0 P salt).resp = .success) :
    (saveClick (setPasswordClick st0 P salt).st false T regionInput P iv).resp = .success ∧
    unlockClick (saveClick (setPasswordClick st0 P salt).st false T regionInput P iv).st
      (lockAlmaKey s).snd P = ⟨.success, some T⟩ := by
  obtain ⟨hP, hst1⟩ := setPasswordClick_success st0 P salt hsetup
  rw [hst1, saveClick_encrypts _ T regionInput P salt iv hT hTne hsalt hsne rfl rfl rfl hP]
  refine ⟨rfl, ?_⟩
  rw [unlockClick]
  rw [if_neg (by simpa using hP)]
  exact unlockAlmaKey_decrypts _ _ (jsTrim P) T salt iv 200000 hsalt hsne (by omega) hiv
    rfl rfl rfl rfl rfl hivne

/-- C1 witness: the amended round trip at the concrete inputs
password `"Sesame1"`, plaintext `"abc"`. -/
theorem c1_roundtrip_trimmed_witness :
    jsTrim "abc" = "abc" ∧ ("abc" : String) ≠ "" ∧
    (setPasswordClick emptyStorage "Sesame1" exSalt).resp = .success ∧
    ((saveClick (setPasswordClick emptyStorage "Sesame1" exSalt).st false "abc" "NA"
        "Sesame1" exIV).resp = .success ∧
      unlockClick (saveClick (setPasswordClick emptyStorage "Sesame1" exSalt).st false "abc"
        "NA" "Sesame1" exIV).st (lockAlmaKey none).snd "Sesame1" = ⟨.success, some "abc"⟩) :=
  ⟨by decide, by decide, by decide,
    c1_roundtrip_trimmed emptyStorage "Sesame1" "abc" "NA" none exSalt exIV (by decide)
      (by decide) (by decide) (by decide) (by decide) (by decide) (by decide)⟩

/-- C2: once a credential save has succeeded (so ciphertext, nonce and the
persisted KEK bytes are all present), `tryAutoUnlockFromKEK` succeeds with
no password argument, using only the persisted verifier/KEK bytes, and after
a process restart resetting the session to Locked (`none`), `getUsableKey`
returns the originally saved plaintext credential. -/
theorem c2_auto_unlock (st0 : Storage) (P T regionInput : String) (salt iv : List Nat)
    (hT : jsTrim T = T) (hTne : T ≠ "")
    (hsalt : ∀ b ∈ salt, b < 256) (hsne : salt ≠ [])
    (hiv : ∀ b ∈ iv, b < 256) (hivne : iv ≠ [])
    (hsetup : (setPasswordClick st0 P salt).resp = .success) :
    tryAutoUnlockFromKEK
        (saveClick (setPasswordClick st0 P salt).st false T regionInput P iv).st none =
      (true, some T) ∧
    (getUsableKey
        (saveClick (setPasswordClick st0 P salt).st false T regionInput P iv).st none).fst =
      some T := by
  obtain ⟨hP, hst1⟩ := setPasswordClick_success st0 P salt hsetup
  rw [hst1, saveClick_encrypts _ T regionInput P salt iv hT hTne hsalt hsne rfl rfl rfl hP]
  have hauto := tryAutoUnlockFromKEK_decrypts
    { { st0 with
        ALMA_PW_SALT := some (b64u salt)
        ALMA_KDF_ITERS := some 200000
        ALMA_KEK_B64 := some (b64u (deriveAesKey (jsTrim P) salt 200000)) } with
      ALMA_API_KEY_C :=
        some (b64u (aesGcmEncrypt (deriveAesKey (jsTrim P) salt 200000) iv (strToBytes T)))
      ALMA_API_KEY_IV := some (b64u iv)
      ALMA_API_KEY_LEN := some T.length
      ALMA_REGION := some (if regionInput == "" then "NA" else regionInput) }
    none T (deriveAesKey (jsTrim P) salt 200000) iv (deriveAesKey_length _ _ _)
    (deriveAesKey_lt _ _ _) (deriveAesKey_ne_nil _ _ _) hiv hivne rfl rfl rfl
  refine ⟨hauto, ?_⟩
  rw [getUsableKey, if_neg (by simp [truthyS]), hauto]
  simp

/-- C2 witness: the spec's end-to-end scenario — `setPassword "Sesame1"`,
`saveCredential "sk-test-12345"`, session reset by restart, then
`getUsableKey` returns `"sk-test-12345"` with zero password prompts. -/
theorem c2_auto_unlock_witness :
    jsTrim "sk-test-12345" = "sk-test-12345" ∧ ("sk-test-12345" : String) ≠ "" ∧
    (setPasswordClick emptyStorage "Sesame1" exSalt).resp = .success ∧
    (tryAutoUnlockFromKEK
        (saveClick (setPasswordClick emptyStorage "Sesame1" exSalt).st false "sk-test-12345"
          "NA" "Sesame1" exIV).st none = (true, some "sk-test-12345") ∧
      (getUsableKey
        (saveClick (setPasswordClick emptyStorage "Sesame1" exSalt).st false "sk-test-12345"
          "NA" "Sesame1" exIV).st none).fst = some "sk-test-12345") :=
  ⟨by decide, by decide, by decide,
    c2_auto_unlock emptyStorage "Sesame1" "sk-test-12345" "NA" exSalt exIV (by decide)
      (by decide) (by decide) (by decide) (by decide) (by decide) (by decide)⟩

/-- C3: after a successful first-time setup with password P, unlocking with a
nonempty password Q whose PBKDF2-derived key under the stored salt and
iteration count differs from P's fails with the wrong-password error and
leaves the in-memory session unchanged. -/
theorem c3_wrong_password (st0 : Storage) (P Q : String) (s : Option String)
    (salt : List Nat)
    (hsalt : ∀ b ∈ salt, b < 256) (hsne : salt ≠ [])
    (hsetup : (setPasswordClick st0 P salt).resp = .success)
    (hQ : jsTrim Q ≠ "")
    (hkeys : deriveAesKey (jsTrim Q) salt 200000 ≠ deriveAesKey (jsTrim P) salt 200000) :
    unlockClick (setPasswordClick st0 P salt).st s Q = ⟨.failure "Wrong password.", s⟩ := by
  obtain ⟨hP, hst1⟩ := setPasswordClick_success st0 P salt hsetup
  rw [hst1, unlockClick, if_neg (by simpa using hQ)]
  simp only [unlockAlmaKey]
  rw [truthyS_some _ (b64u_ne_empty salt hsne), truthyN_some 200000 (by omega),
    truthyS_some _ (b64u_ne_empty _ (deriveAesKey_ne_nil _ _ _))]
  simp only [Bool.not_true, Bool.and_self, Bool.false_and, Bool.and_false, Bool.or_self,
    if_neg (by simp : ¬(false = true))]
  rw [strOrEmpty, ub64_b64u salt hsalt, itersOrDefault_some 200000 (by omega)]
  rw [if_pos ?_]
  intro hcontra
  have heq := Option.some.inj hcontra
  exact hkeys
    (b64u_injective _ _ (deriveAesKey_lt _ _ _) (deriveAesKey_lt _ _ _) heq).symm

/-- C3 witness: with the concrete passwords `"p"` and `"q"` over the concrete
salt, the derived keys differ and unlock with `"q"` is rejected. -/
theorem c3_wrong_password_witness :
    (∀ b ∈ exSalt, b < 256) ∧ exSalt ≠ [] ∧
    (setPasswordClick emptyStorage "p" exSalt).resp = .success ∧
    jsTrim "q" ≠ "" ∧
    deriveAesKey (jsTrim "q") exSalt 200000 ≠ deriveAesKey (jsTrim "p") exSalt 200000 ∧
    unlockClick (setPasswordClick emptyStorage "p" exSalt).st (some "old") "q" =
      ⟨.failure "Wrong password.", some "old"⟩ :=
  ⟨by decide, by decide, by decide, by decide, by decide,
    c3_wrong_password emptyStorage "p" "q" (some "old") exSalt (by decide) (by decide)
      (by decide) (by decide) (by decide)⟩

/-- C4 counterexample: on a storage holding only the password salt (iteration
count and verifier absent), unlock does not fail with the incomplete-setup
error; it falls through the completeness checks (which only fire when the
verifier is present) and fails with the wrong-password error. -/
theorem c4_counterexample :
    unlockAlmaKey saltOnlyStorage none "anypassword" = ⟨.failure "Wrong password.", none⟩ ∧
    ("Wrong password." : String) ≠ "Password setting incomplete. Click Set Password to repair." := by
  refine ⟨by decide, by decide⟩

/-- C4 (amended): on a storage whose verifier is not truthy but whose salt is
(in particular, only `ALMA_PW_SALT` persisted), every unlock attempt fails
with the wrong-password error, leaving the session unchanged and with no
crash; and the incomplete-setup error is produced exactly when the verifier
is present but the salt or the iteration count is missing — when the
verifier is present and salt or iterations is missing it fires, and in every
other storage shape no unlock attempt ever returns it. -/
theorem c4_partial_setup (st st2 st3 : Storage) (sess sess2 sess3 : Option String)
    (password pw2 pw3 : String)
    (hK : truthyS st.ALMA_KEK_B64 = false)
    (hS : truthyS st.ALMA_PW_SALT = true)
    (hK2 : truthyS st2.ALMA_KEK_B64 = true)
    (hSI2 : truthyS st2.ALMA_PW_SALT = false ∨ truthyN st2.ALMA_KDF_ITERS = false)
    (h3 : (truthyS st3.ALMA_KEK_B64
        && (!truthyS st3.ALMA_PW_SALT || !truthyN st3.ALMA_KDF_ITERS)) ≠ true) :
    unlockAlmaKey st sess password = ⟨.failure "Wrong password.", sess⟩ ∧
    unlockAlmaKey st2 sess2 pw2 =
      ⟨.failure "Password setting incomplete. Click Set Password to repair.", sess2⟩ ∧
    (unlockAlmaKey st3 sess3 pw3).resp ≠
      .failure "Password setting incomplete. Click Set Password to repair." := by
  refine ⟨?_, ?_, ?_⟩
  · have hne : st.ALMA_KEK_B64 ≠
        some (b64u (deriveAesKey password (ub64 (strOrEmpty st.ALMA_PW_SALT))
          (itersOrDefault st.ALMA_KDF_ITERS))) := by
      cases hkek : st.ALMA_KEK_B64 with
      | none => simp
      | some v =>
        have hv : v = "" := by
          rw [hkek] at hK
          simpa [truthyS] using hK
        rw [hv]
        intro hcontra
        exact b64u_ne_empty _ (deriveAesKey_ne_nil _ _ _) (Option.some.inj hcontra).symm
    simp only [unlockAlmaKey, hK, hS, Bool.not_false, Bool.not_true, Bool.true_and,
      Bool.false_and, Bool.and_false, if_neg (by simp : ¬(false = true))]
    rw [if_pos hne]
  · simp only [unlockAlmaKey, hK2, Bool.not_true, Bool.false_and, Bool.true_and,
      if_neg (by simp : ¬(false = true))]
    rcases hSI2 with h2 | h2 <;> rw [h2] <;> simp
  · simp only [unlockAlmaKey]
    by_cases h1 : (!truthyS st3.ALMA_KEK_B64 && !truthyS st3.ALMA_PW_SALT
        && !truthyN st3.ALMA_KDF_ITERS) = true
    · rw [if_pos h1]
      intro hcontra
      have : ("No password set. Click Set Password first." : String) =
          "Password setting incomplete. Click Set Password to repair." := by
        injection hcontra
      exact absurd this (by decide)
    · rw [if_neg h1, if_neg h3]
      by_cases h2 : st3.ALMA_KEK_B64 ≠ some (b64u (deriveAesKey pw3
          (ub64 (strOrEmpty st3.ALMA_PW_SALT)) (itersOrDefault st3.ALMA_KDF_ITERS)))
      · rw [if_pos h2]
        intro hcontra
        have : ("Wrong password." : String) =
            "Password setting incomplete. Click Set Password to repair." := by
          injection hcontra
        exact absurd this (by decide)
      · rw [if_neg h2]
        by_cases h4 : (truthyS st3.ALMA_API_KEY_C && truthyS st3.ALMA_API_KEY_IV) = true
        · rw [if_pos h4]
          cases hdec : aesGcmDecrypt (deriveAesKey pw3 (ub64 (strOrEmpty st3.ALMA_PW_SALT))
              (itersOrDefault st3.ALMA_KDF_ITERS)) (ub64 (strOrEmpty st3.ALMA_API_KEY_IV))
              (ub64 (strOrEmpty st3.ALMA_API_KEY_C)) with
          | some pt =>
            simp
          | none =>
            intro hcontra
            have : ("Unlock failed." : String) =
                "Password setting incomplete. Click Set Password to repair." := by
              injection hcontra
            exact absurd this (by decide)
        · rw [if_neg h4]
          simp

/-- C4 witness: the amended statement at concrete inputs — the salt-only
storage falls to the wrong-password error, a verifier-only storage gets the
incomplete-setup error, and neither an iterations-only storage nor a
complete record ever yields the incomplete-setup error. -/
theorem c4_partial_setup_witness :
    truthyS saltOnlyStorage.ALMA_KEK_B64 = false ∧
    truthyS saltOnlyStorage.ALMA_PW_SALT = true ∧
    truthyS corruptCipherStorage.ALMA_KEK_B64 = true ∧
    truthyS corruptCipherStorage.ALMA_PW_SALT = false ∧
    (truthyS itersOnlyStorage.ALMA_KEK_B64
        && (!truthyS itersOnlyStorage.ALMA_PW_SALT
          || !truthyN itersOnlyStorage.ALMA_KDF_ITERS)) ≠ true ∧
    (truthyS exSetupStorage.ALMA_KEK_B64
        && (!truthyS exSetupStorage.ALMA_PW_SALT
          || !truthyN exSetupStorage.ALMA_KDF_ITERS)) ≠ true ∧
    (unlockAlmaKey saltOnlyStorage (some "s") "pw" = ⟨.failure "Wrong password.", some "s"⟩ ∧
      unlockAlmaKey corruptCipherStorage (some "s2") "pw2" =
        ⟨.failure "Password setting incomplete. Click Set Password to repair.", some "s2"⟩ ∧
      (unlockAlmaKey itersOnlyStorage (some "s3") "pw3").resp ≠
        .failure "Password setting incomplete. Click Set Password to repair.") ∧
    (unlockAlmaKey exSetupStorage (some "s4") "pw4").resp ≠
      .failure "Password setting incomplete. Click Set Password to repair." :=
  ⟨by decide, by decide, by decide, by decide, by decide, by decide,
    c4_partial_setup saltOnlyStorage corruptCipherStorage itersOnlyStorage (some "s")
      (some "s2") (some "s3") "pw" "pw2" "pw3" (by decide) (by decide) (by decide)
      (Or.inl (by decide)) (by decide),
    (c4_partial_setup saltOnlyStorage corruptCipherStorage exSetupStorage (some "s")
      (some "s2") (some "s4") "pw" "pw2" "pw4" (by decide) (by decide) (by decide)
      (Or.inl (by decide)) (by decide)).2.2⟩

/-- C5 counterexample: clearing does not remove every CredentialRecord field.
After a successful save of `"sk-test-12345"` (13 characters), two clears in a
row leave `ALMA_API_KEY_LEN` still set to 13: the source's remove list omits
it. -/
theorem c5_counterexample :
    (clearClick exSavedStorage false).resp = .success ∧
    (clearClick (clearClick exSavedStorage false).st false).resp = .success ∧
    (clearClick (clearClick exSavedStorage false).st false).st.ALMA_API_KEY_LEN = some 13 ∧
    some 13 ≠ (none : Option Nat) := by
  refine ⟨by decide, by decide, by decide, by decide⟩

/-- C5 (amended): on an unlocked page, clear called twice in a row succeeds
both times and the second call changes nothing; afterwards no PasswordRecord
field (salt, iteration count, verifier) and neither the ciphertext nor the
nonce (nor the legacy plaintext slot) remains, but the plaintext-length
field is left in place. -/
theorem c5_clear_idempotent (st : Storage) :
    (clearClick st false).resp = .success ∧
    (clearClick (clearClick st false).st false).resp = .success ∧
    (clearClick (clearClick st false).st false).st = (clearClick st false).st ∧
    (clearClick st false).st.ALMA_PW_SALT = none ∧
    (clearClick st false).st.ALMA_KDF_ITERS = none ∧
    (clearClick st false).st.ALMA_KEK_B64 = none ∧
    (clearClick st false).st.ALMA_API_KEY_C = none ∧
    (clearClick st false).st.ALMA_API_KEY_IV = none ∧
    (clearClick st false).st.ALMA_API_KEY = none ∧
    (clearClick st false).st.ALMA_API_KEY_LEN = st.ALMA_API_KEY_LEN := by
  simp [clearClick]

/-- C6: when a complete PasswordRecord (verifier, salt, iteration count all
truthy) exists, the set-password handler leaves storage untouched — on any
nonempty input it returns the named already-set error — and a new record is
written only when the complete record is absent. -/
theorem c6_no_overwrite (st : Storage) (passwordInput : String) (salt : List Nat) :
    ((truthyS st.ALMA_KEK_B64 && truthyS st.ALMA_PW_SALT && truthyN st.ALMA_KDF_ITERS) = true →
      (setPasswordClick st passwordInput salt).st = st ∧
      (jsTrim passwordInput ≠ "" →
        (setPasswordClick st passwordInput salt).resp =
          .failure "Password already set. Use Unlock to edit.")) ∧
    ((truthyS st.ALMA_KEK_B64 && truthyS st.ALMA_PW_SALT && truthyN st.ALMA_KDF_ITERS) ≠ true →
      jsTrim passwordInput ≠ "" →
      (setPasswordClick st passwordInput salt).st =
        { st with
          ALMA_PW_SALT := some (b64u salt)
          ALMA_KDF_ITERS := some 200000
          ALMA_KEK_B64 := some (b64u (deriveAesKey (jsTrim passwordInput) salt 200000)) }) := by
  constructor
  · intro hc
    by_cases hP : jsTrim passwordInput = ""
    · exact ⟨by simp [setPasswordClick, hP], fun h => absurd hP h⟩
    · constructor
      · simp [setPasswordClick, hP, hc]
      · intro _
        simp [setPasswordClick, hP, hc]
  · intro hc hP
    simp only [setPasswordClick]
    rw [if_neg (by simpa using hP), if_neg hc]

/-- C6 witness: on the storage left by a successful setup (a complete
record), a second set-password call with `"NewPw"` changes nothing and
reports the already-set error. -/
theorem c6_no_overwrite_witness :
    (truthyS exSetupStorage.ALMA_KEK_B64 && truthyS exSetupStorage.ALMA_PW_SALT
        && truthyN exSetupStorage.ALMA_KDF_ITERS) = true ∧
    jsTrim "NewPw" ≠ "" ∧
    ((setPasswordClick exSetupStorage "NewPw" exSalt).st = exSetupStorage ∧
      (setPasswordClick exSetupStorage "NewPw" exSalt).resp =
        .failure "Password already set. Use Unlock to edit.") :=
  ⟨by decide, by decide,
    ((c6_no_overwrite exSetupStorage "NewPw" exSalt).1 (by decide)).1,
    ((c6_no_overwrite exSetupStorage "NewPw" exSalt).1 (by decide)).2 (by decide)⟩

/-- C7: on a storage with a complete PasswordRecord but no CredentialRecord
(ciphertext or nonce not truthy), unlocking with the correct password
reports success while the in-memory session credential stays absent. -/
theorem c7_unlock_without_credential (st : Storage) (P : String) (salt : List Nat)
    (iters : Nat)
    (hsalt : ∀ b ∈ salt, b < 256) (hsne : salt ≠ []) (hiters : iters ≠ 0)
    (hS : st.ALMA_PW_SALT = some (b64u salt))
    (hI : st.ALMA_KDF_ITERS = some iters)
    (hK : st.ALMA_KEK_B64 = some (b64u (deriveAesKey (jsTrim P) salt iters)))
    (hP : jsTrim P ≠ "")
    (hcred : (truthyS st.ALMA_API_KEY_C && truthyS st.ALMA_API_KEY_IV) = false) :
    unlockClick st none P = ⟨.success, none⟩ := by
  rw [unlockClick]
  rw [if_neg (by simpa using hP)]
  simp only [unlockAlmaKey]
  rw [hS, hI, hK]
  rw [truthyS_some _ (b64u_ne_empty salt hsne), truthyN_some iters hiters,
    truthyS_some _ (b64u_ne_empty _ (deriveAesKey_ne_nil _ _ _))]
  simp only [Bool.not_true, Bool.and_self, Bool.false_and, Bool.and_false, Bool.or_self,
    if_neg (by simp : ¬(false = true))]
  rw [strOrEmpty, ub64_b64u salt hsalt, itersOrDefault_some iters hiters]
  rw [if_neg (by simp), if_neg (by simp [hcred])]

/-- C7 witness: on the storage left by setup with `"Sesame1"` (no credential
saved yet), unlock with `"Sesame1"` succeeds with an empty session. -/
theorem c7_unlock_without_credential_witness :
    (∀ b ∈ exSalt, b < 256) ∧ exSalt ≠ [] ∧ (200000 : Nat) ≠ 0 ∧
    exSetupStorage.ALMA_PW_SALT = some (b64u exSalt) ∧
    exSetupStorage.ALMA_KDF_ITERS = some 200000 ∧
    exSetupStorage.ALMA_KEK_B64 = some (b64u (deriveAesKey (jsTrim "Sesame1") exSalt 200000)) ∧
    jsTrim "Sesame1" ≠ "" ∧
    (truthyS exSetupStorage.ALMA_API_KEY_C && truthyS exSetupStorage.ALMA_API_KEY_IV) = false ∧
    unlockClick exSetupStorage none "Sesame1" = ⟨.success, none⟩ :=
  ⟨by decide, by decide, by decide, by decide, by decide, by decide, by decide, by decide,
    c7_unlock_without_credential exSetupStorage "Sesame1" exSalt 200000 (by decide) (by decide)
      (by decide) (by decide) (by decide) (by decide) (by decide) (by decide)⟩

/-- C8 counterexample: with the session Unlocked (holding `"inmemory"`) and a
stored ciphertext too short to decrypt, the failed auto-unlock does not
leave the session unchanged — the catch branch nulls it, transitioning
Unlocked to Locked, contrary to the claim. -/
theorem c8_counterexample :
    tryAutoUnlockFromKEK corruptCipherStorage (some "inmemory") = (false, none) ∧
    some "inmemory" ≠ (none : Option String) := by
  refine ⟨by decide, by decide⟩

/-- C8 (amended): a failed unlock always leaves the session unchanged, and a
failed auto-unlock leaves it unchanged when key material is missing; but an
auto-unlock that reaches decryption and fails clears the session to Locked
(the catch branch sets the in-memory key to null). -/
theorem c8_failure_frame (st : Storage) (sess : Option String) (password : String) :
    ((unlockAlmaKey st sess password).resp ≠ .success →
      (unlockAlmaKey st sess password).sess = sess) ∧
    ((truthyS st.ALMA_API_KEY_C && truthyS st.ALMA_API_KEY_IV
        && truthyS st.ALMA_KEK_B64) = false →
      tryAutoUnlockFromKEK st sess = (false, sess)) ∧
    ((truthyS st.ALMA_API_KEY_C && truthyS st.ALMA_API_KEY_IV
        && truthyS st.ALMA_KEK_B64) = true →
      aesGcmDecrypt (ub64 (strOrEmpty st.ALMA_KEK_B64)) (ub64 (strOrEmpty st.ALMA_API_KEY_IV))
          (ub64 (strOrEmpty st.ALMA_API_KEY_C)) = none →
      tryAutoUnlockFromKEK st sess = (false, none)) := by
  refine ⟨?_, ?_, ?_⟩
  · simp only [unlockAlmaKey]
    split
    · intro _
      rfl
    · split
      · intro _
        rfl
      · split
        · intro _
          rfl
        · split
          · split
            · intro h
              exact absurd rfl h
            · intro _
              rfl
          · intro _
            rfl
  · intro h
    simp [tryAutoUnlockFromKEK, h]
  · intro h hdec
    simp only [tryAutoUnlockFromKEK, h, Bool.not_true, if_neg (by simp : ¬(false = true))]
    rw [hdec]

/-- C8 witness: the amended statement at concrete inputs — a failed unlock on
the salt-only storage keeps the session; missing material keeps the session;
a decryption failure nulls it. -/
theorem c8_failure_frame_witness :
    ((unlockAlmaKey saltOnlyStorage (some "k") "pw").resp ≠ .success ∧
      (unlockAlmaKey saltOnlyStorage (some "k") "pw").sess = some "k") ∧
    ((truthyS emptyStorage.ALMA_API_KEY_C && truthyS emptyStorage.ALMA_API_KEY_IV
        && truthyS emptyStorage.ALMA_KEK_B64) = false ∧
      tryAutoUnlockFromKEK emptyStorage (some "k") = (false, some "k")) ∧
    (aesGcmDecrypt (ub64 (strOrEmpty corruptCipherStorage.ALMA_KEK_B64))
        (ub64 (strOrEmpty corruptCipherStorage.ALMA_API_KEY_IV))
        (ub64 (strOrEmpty corruptCipherStorage.ALMA_API_KEY_C)) = none ∧
      tryAutoUnlockFromKEK corruptCipherStorage (some "k") = (false, none)) :=
  ⟨⟨by decide, (c8_failure_frame saltOnlyStorage (some "k") "pw").1 (by decide)⟩,
    ⟨by decide, (c8_failure_frame emptyStorage (some "k") "x").2.1 (by decide)⟩,
    ⟨by decide, (c8_failure_frame corruptCipherStorage (some "k") "x").2.2 (by decide)
      (by decide)⟩⟩

/-- C9: saving with an input that trims to empty (empty or whitespace-only)
persists only the region — chosen for any region value, defaulting to `"NA"`
when blank — succeeds, consults no password, and leaves every
CredentialRecord and PasswordRecord field unchanged. -/
theorem c9_region_only_save (st : Storage) (apiKeyInput regionInput passwordInput : String)
    (iv : List Nat) (h : jsTrim apiKeyInput = "") :
    saveClick st false apiKeyInput regionInput passwordInput iv =
      ⟨.success,
        { st with ALMA_REGION := some (if regionInput == "" then "NA" else regionInput) }⟩ ∧
    (saveClick st false apiKeyInput regionInput passwordInput iv).st.ALMA_API_KEY_C =
      st.ALMA_API_KEY_C ∧
    (saveClick st false apiKeyInput regionInput passwordInput iv).st.ALMA_API_KEY_IV =
      st.ALMA_API_KEY_IV ∧
    (saveClick st false apiKeyInput regionInput passwordInput iv).st.ALMA_API_KEY_LEN =
      st.ALMA_API_KEY_LEN ∧
    (saveClick st false apiKeyInput regionInput passwordInput iv).st.ALMA_PW_SALT =
      st.ALMA_PW_SALT ∧
    (saveClick st false apiKeyInput regionInput passwordInput iv).st.ALMA_KDF_ITERS =
      st.ALMA_KDF_ITERS ∧
    (saveClick st false apiKeyInput regionInput passwordInput iv).st.ALMA_KEK_B64 =
      st.ALMA_KEK_B64 := by
  have heq : saveClick st false apiKeyInput regionInput passwordInput iv =
      ⟨.success,
        { st with ALMA_REGION := some (if regionInput == "" then "NA" else regionInput) }⟩ := by
    simp [saveClick, h]
  exact ⟨heq, by rw [heq], by rw [heq], by rw [heq], by rw [heq], by rw [heq], by rw [heq]⟩

/-- C9 witness: a whitespace-only key input with region `"EU"` and an empty
password on the post-save storage saves only the region. -/
theorem c9_region_only_save_witness :
    jsTrim "   " = "" ∧
    saveClick exSavedStorage false "   " "EU" "" exIV =
      ⟨.success, { exSavedStorage with ALMA_REGION := some (if "EU" == "" then "NA" else "EU") }⟩ :=
  ⟨by decide, (c9_region_only_save exSavedStorage "   " "EU" "" exIV (by decide)).1⟩

/-- C10: whenever the save handler succeeds on an input that trims nonempty
(so a credential was actually encrypted), the persisted plaintext-length
field equals the exact character length of the trimmed plaintext that was
encrypted. -/
theorem c10_plaintext_length (st : Storage) (apiKeyInput regionInput passwordInput : String)
    (iv : List Nat) (locked : Bool)
    (hne : jsTrim apiKeyInput ≠ "")
    (hsucc : (saveClick st locked apiKeyInput regionInput passwordInput iv).resp = .success) :
    (saveClick st locked apiKeyInput regionInput passwordInput iv).st.ALMA_API_KEY_LEN =
      some (jsTrim apiKeyInput).length := by
  revert hsucc
  simp only [saveClick]
  split
  · intro h
    simp at h
  · split
    · rename_i hcond
      intro _
      exact absurd (by simpa using hcond) hne
    · split
      · intro h
        simp at h
      · split
        · intro h
          simp at h
        · split
          · intro h
            simp at h
          · intro _
            rfl

/-- C10 witness: saving `"sk-test-12345"` after setup records length 13. -/
theorem c10_plaintext_length_witness :
    jsTrim "sk-test-12345" ≠ "" ∧
    (saveClick exSetupStorage false "sk-test-12345" "NA" "Sesame1" exIV).resp = .success ∧
    (saveClick exSetupStorage false "sk-test-12345" "NA" "Sesame1" exIV).st.ALMA_API_KEY_LEN =
      some (jsTrim "sk-test-12345").length :=
  ⟨by decide, by decide,
    c10_plaintext_length exSetupStorage "sk-test-12345" "NA" "Sesame1" exIV false (by decide)
      (by decide)⟩
